import Mathlib

/-!
Shallow embedding of the service-lifecycle manager of
`src/podman/command/command.py` (class `PodmanCommand`): the methods
`start_service`, `stop_service`, `wait_for_service` and the context manager
`service`.  Python integers become `Nat`/`Int`, wall-clock observations and
process-poll observations become explicit traces indexed by loop iteration,
and Python exceptions become an explicit error type threaded through
`Except`.  The readiness loop is given fuel (`Option` result, `none` when the
fuel runs out before the loop terminates) so every definition is executable.
-/

/-- Exceptions that can flow through the lifecycle manager.  The repository's
`errors` module is not part of the embedded source file; the taxonomy is
Modelled from the spec: `PodmanError` is the platform-unsupported failure,
`ServiceTimeout`/`ServiceTerminated` are the readiness failures raised by
`wait_for_service`, `apiError` is the designated recoverable "API
unreachable" connectivity class that `except errors.APIError: pass` swallows,
and `other` stands for any other exception a ping can raise (the fatal,
non-connectivity class, which no handler in the embedded source catches). -/
inductive PyExc where
  | podmanError (msg : String)
  | serviceTimeout (t : Nat)
  | serviceTerminated (code : Int)
  | apiError
  | other (msg : String)
deriving DecidableEq, Repr

/-- Outcome of one `c.ping()` call: either a returned boolean or a raised
exception.  Modelled from the spec: the Liveness Prober performs a single
best-effort health check that succeeds, fails with the recoverable
connectivity error (`apiError`), or fails with a fatal error. -/
inductive PingResult where
  | ok (b : Bool)
  | exc (e : PyExc)
deriving DecidableEq, Repr

/-- Environment trace observed by `wait_for_service`, indexed by loop
iteration `k`: `elapsed k` is the value of `time.monotonic() - start` at the
top of iteration `k`, `pollRes k` is what `proc.poll()` returns there
(`some code` once the child has exited, `none` while it runs), and
`pingRes k` is the outcome of the ping attempted there. -/
structure WaitTrace where
  elapsed : Nat → Nat
  pollRes : Nat → Option Int
  pingRes : Nat → PingResult

/-- The guard `if timeout and time.monotonic() - start > timeout` of
`wait_for_service`.  Python truthiness: `None` and `0` are both falsy, so a
timeout of `0` never trips this check; the comparison is strict. -/
def deadlineHit (timeout : Option Nat) (tr : WaitTrace) (k : Nat) : Bool :=
  match timeout with
  | none => false
  | some t => t != 0 && decide (t < tr.elapsed k)

/-- What one iteration of the `wait_for_service` loop decides. -/
inductive StepOutcome where
  | success
  | raises (e : PyExc)
  | next
deriving DecidableEq, Repr

/-- One iteration of the `while True` loop of `wait_for_service`, in source
order: the deadline guard first, then `proc.poll()` (raising
`ServiceTerminated(ret)` when the child has exited), then `c.ping()` —
a `True` ping breaks out with success, a `False` ping falls through to the
sleep, `errors.APIError` is swallowed (`pass`) and falls through to the
sleep, and any other exception propagates. -/
def waitStep (timeout : Option Nat) (tr : WaitTrace) (k : Nat) : StepOutcome :=
  if deadlineHit timeout tr k then
    .raises (.serviceTimeout (timeout.getD 0))
  else
    match tr.pollRes k with
    | some ret => .raises (.serviceTerminated ret)
    | none =>
      match tr.pingRes k with
      | .ok true => .success
      | .ok false => .next
      | .exc .apiError => .next
      | .exc e => .raises e

/-- Whether iteration `k` reaches the `c.ping()` call: it does exactly when
neither the deadline guard nor the process-exit guard fired first. -/
def pingAttempted (timeout : Option Nat) (tr : WaitTrace) (k : Nat) : Bool :=
  !deadlineHit timeout tr k && (tr.pollRes k).isNone

/-- The `wait_for_service` loop, run from iteration `k` with `pings` pings
already performed and bounded by `fuel` iterations.  Returns `none` when the
fuel is exhausted before the loop terminates, otherwise the loop's outcome
(`Except.ok` for a successful ping, `Except.error` for a raised exception)
paired with the total number of pings performed. -/
def wait_for_service (timeout : Option Nat) (tr : WaitTrace) :
    Nat → Nat → Nat → Option (Except PyExc Unit × Nat)
  | 0, _, _ => none
  | fuel + 1, k, pings =>
    let pings' := pings + (if pingAttempted timeout tr k then 1 else 0)
    match waitStep timeout tr k with
    | .success => some (.ok (), pings')
    | .raises e => some (.error e, pings')
    | .next => wait_for_service timeout tr fuel (k + 1) pings'

/-- Behaviour of one child process under the shutdown escalation of
`stop_service`.  `returncode` is `some c` when the process has already
exited with code `c` before `stop_service` is called (Python's
`Popen.terminate` is then a no-op and `Popen.wait` returns `c` at once);
otherwise `termExitTime` is how long the process takes to exit after the
graceful `terminate()` signal, `termExitCode` the code it then exits with,
and `killExitCode` the code the OS records when it is force-killed by
`kill()` instead. -/
structure ProcBehavior where
  returncode : Option Int
  termExitTime : Nat
  termExitCode : Int
  killExitCode : Int
deriving DecidableEq, Repr

/-- Observable result of a `stop_service` call: whether the graceful
terminate signal was issued, whether the forceful kill path ran, and the
returned exit code. -/
structure StopResult where
  termSent : Bool
  killed : Bool
  ret : Int
deriving DecidableEq, Repr

/-- The body of `PodmanCommand.stop_service`: `proc.terminate()`
unconditionally, then `proc.wait(timeout=timeout)`; if that wait raises
`subprocess.TimeoutExpired` (the process did not exit within `timeout`),
`proc.kill()` followed by `proc.wait()` with no timeout.  A `timeout` of
`none` means the first wait is unbounded, so the kill path is unreachable. -/
def stop_service (p : ProcBehavior) (timeout : Option Nat) : StopResult :=
  match p.returncode with
  | some c => { termSent := true, killed := false, ret := c }
  | none =>
    match timeout with
    | none => { termSent := true, killed := false, ret := p.termExitCode }
    | some t =>
      if p.termExitTime ≤ t then
        { termSent := true, killed := false, ret := p.termExitCode }
      else
        { termSent := true, killed := true, ret := p.killExitCode }

/-- The exit code the process truly ends with in a given scenario: the code
it had already exited with, or its graceful-exit code, unless the forceful
kill ran, in which case the kill code. -/
def actualExitCode (p : ProcBehavior) (killed : Bool) : Int :=
  if killed then p.killExitCode
  else
    match p.returncode with
    | some c => c
    | none => p.termExitCode

/-- The platform guard and spawn of `PodmanCommand.start_service`: when
`platform.system()` is not `"Linux"`, it raises
`errors.PodmanError("The `podman system service` command is available only
on Linux systems")` before `self.runner.construct`/`run_raw` ever run;
otherwise the launcher is invoked exactly once.  The second component counts
launcher (`run_raw`) invocations; the spawned handle itself is abstract. -/
def start_service (system : String) : Except PyExc Unit × Nat :=
  if system ≠ "Linux" then
    (.error (.podmanError
      "The `podman system service` command is available only on Linux systems"), 0)
  else
    (.ok (), 1)

/-- Behaviour of the caller's `with`-block once the handle has been
yielded: either it finishes normally or it raises an exception. -/
inductive UseResult where
  | ok
  | raises (e : PyExc)
deriving DecidableEq, Repr

/-- Observable result of one run of the `service` context manager:
the outcome surfaced to the caller, how many times `stop_service` was
invoked, and whether the handle was ever yielded to the caller. -/
structure ServiceRun where
  result : Except PyExc Unit
  stops : Nat
  yielded : Bool
deriving Repr

/-- The exception classes named in the `except (errors.ServiceTimeout,
errors.ServiceTerminated)` clause of `service`. -/
def isCleanupCaught : PyExc → Bool
  | .serviceTimeout _ => true
  | .serviceTerminated _ => true
  | _ => false

/-- The `PodmanCommand.service` generator under `contextlib.contextmanager`
semantics.  `waitRes` is the outcome of the `wait_for_service` call for this
session.  Source control flow: `start_service` (platform guard) first; then
`wait_for_service` inside a `try` whose `except` clause catches exactly
`ServiceTimeout` and `ServiceTerminated`, calls `stop_service` once and
re-raises the same exception; any other exception from the wait propagates
with no `stop_service` call.  On a successful wait the generator yields; if
the caller's block finishes normally the statement after the `yield` runs
`stop_service` once; if the caller's block raises, the exception is thrown
into the generator at the `yield` and — the `yield` not being wrapped in any
`try`/`finally` — propagates without the trailing `stop_service` running. -/
def service (system : String) (waitRes : Except PyExc Unit) (use : UseResult) :
    ServiceRun :=
  match (start_service system).1 with
  | .error e => { result := .error e, stops := 0, yielded := false }
  | .ok _ =>
    match waitRes with
    | .error e =>
      if isCleanupCaught e then
        { result := .error e, stops := 1, yielded := false }
      else
        { result := .error e, stops := 0, yielded := false }
    | .ok _ =>
      match use with
      | .ok => { result := .ok (), stops := 1, yielded := true }
      | .raises e => { result := .error e, stops := 0, yielded := true }

/-- Running the loop over `d` consecutive iterations that each fall through
to the sleep (no deadline hit, process still running, ping returning `False`
or raising the swallowed `APIError`) just advances the iteration counter and
the ping count by `d`. -/
theorem wait_for_service_skip (timeout : Option Nat) (tr : WaitTrace) (fuel : Nat) :
    ∀ (d j pings : Nat),
      (∀ i, j ≤ i → i < j + d →
        deadlineHit timeout tr i = false ∧ tr.pollRes i = none ∧
          (tr.pingRes i = .ok false ∨ tr.pingRes i = .exc .apiError)) →
      wait_for_service timeout tr (d + (fuel + 1)) j pings =
        wait_for_service timeout tr (fuel + 1) (j + d) (pings + d) := by
  intro d
  induction d with
  | zero => intro j pings _; simp
  | succ d ih =>
    intro j pings h
    obtain ⟨hdl, hpoll, hping⟩ := h j (le_refl j) (by omega)
    have hstep : waitStep timeout tr j = .next := by
      rcases hping with hp | hp <;> simp [waitStep, hdl, hpoll, hp]
    have hatt : pingAttempted timeout tr j = true := by
      simp [pingAttempted, hdl, hpoll]
    have hf : d + 1 + (fuel + 1) = (d + (fuel + 1)) + 1 := by omega
    rw [hf]
    have hrec :
        wait_for_service timeout tr ((d + (fuel + 1)) + 1) j pings =
          wait_for_service timeout tr (d + (fuel + 1)) (j + 1) (pings + 1) := by
      simp [wait_for_service, hstep, hatt]
    rw [hrec, ih (j + 1) (pings + 1) (by
      intro i hi1 hi2
      exact h i (by omega) (by omega))]
    have h1 : j + 1 + d = j + (d + 1) := by omega
    have h2 : pings + 1 + d = pings + (d + 1) := by omega
    rw [h1, h2]

/-- C9: for every call to `start_service` on a host whose operating system
is not Linux, the call fails with the platform-unsupported `PodmanError`
before any spawn is attempted, and the launcher is never invoked (zero
`run_raw` calls). -/
theorem start_service_non_linux_no_spawn :
    ∀ (system : String), system ≠ "Linux" →
      start_service system =
        (.error (.podmanError
          "The `podman system service` command is available only on Linux systems"), 0) := by
  intro system h
  simp [start_service, h]

/-- Witness for C9 at the concrete host string "Darwin". -/
theorem start_service_non_linux_no_spawn_witness :
    start_service "Darwin" =
      (.error (.podmanError
        "The `podman system service` command is available only on Linux systems"), 0) :=
  start_service_non_linux_no_spawn "Darwin" (by decide)

/-- C7: for every call to `stop_service`, the graceful terminate signal is
sent unconditionally; the forceful kill path runs exactly when the process
was still running, a stop timeout was supplied and the process's
graceful-exit time exceeds it (the bounded wait timed out); and the returned
value equals the process's actual exit code in every scenario — graceful
exit within the timeout or force-kill after expiry. -/
theorem stop_service_escalation_spec :
    ∀ (p : ProcBehavior) (timeout : Option Nat),
      (stop_service p timeout).termSent = true ∧
      ((stop_service p timeout).killed = true ↔
        p.returncode = none ∧ ∃ t, timeout = some t ∧ t < p.termExitTime) ∧
      (stop_service p timeout).ret = actualExitCode p (stop_service p timeout).killed := by
  intro p timeout
  rcases hr : p.returncode with _ | c
  · rcases timeout with _ | t
    · simp [stop_service, actualExitCode, hr]
    · by_cases hle : p.termExitTime ≤ t
      · simp [stop_service, actualExitCode, hr, hle]
      · simp [stop_service, actualExitCode, hr, hle]
        omega
  · simp [stop_service, actualExitCode, hr]

/-- C8: calling `stop_service` on a process that has already exited is
idempotent — it returns the process's actual exit code, the kill path never
runs, and no error is raised (the embedding of `stop_service` is total: the
no-op terminate plus immediate wait raise nothing). -/
theorem stop_service_idempotent_on_exited :
    ∀ (p : ProcBehavior) (timeout : Option Nat) (c : Int),
      p.returncode = some c →
      (stop_service p timeout).ret = c ∧
        (stop_service p timeout).killed = false ∧
        (stop_service p timeout).termSent = true := by
  intro p timeout c h
  simp [stop_service, h]

/-- Sample process for the C8 witness: it has already exited with code 0. -/
def exitedProc : ProcBehavior :=
  { returncode := some 0, termExitTime := 9, termExitCode := 1, killExitCode := -9 }

/-- Witness for C8: a process that already exited with code 0, stopped with
a five-unit timeout. -/
theorem stop_service_idempotent_on_exited_witness :
    (stop_service exitedProc (some 5)).ret = 0 ∧
      (stop_service exitedProc (some 5)).killed = false ∧
      (stop_service exitedProc (some 5)).termSent = true :=
  stop_service_idempotent_on_exited exitedProc (some 5) 0 rfl

/-- C6: for every scoped session whose readiness wait fails with
`ServiceTimeout` or `ServiceTerminated`, `stop_service` is invoked exactly
once and the original readiness failure is re-raised unchanged, whatever the
caller's block would have done. -/
theorem service_cleanup_on_readiness_failure :
    ∀ (use : UseResult) (t : Nat) (c : Int),
      service "Linux" (.error (.serviceTimeout t)) use =
        { result := .error (.serviceTimeout t), stops := 1, yielded := false } ∧
      service "Linux" (.error (.serviceTerminated c)) use =
        { result := .error (.serviceTerminated c), stops := 1, yielded := false } := by
  intro use t c
  exact ⟨rfl, rfl⟩

/-- C10: in the scoped session, a readiness failure other than
`ServiceTimeout`/`ServiceTerminated` is not caught by the cleanup clause:
the error propagates with `stop_service` never invoked and the handle never
yielded. -/
theorem service_no_stop_on_other_readiness_error :
    ∀ (use : UseResult) (e : PyExc), isCleanupCaught e = false →
      service "Linux" (.error e) use =
        { result := .error e, stops := 0, yielded := false } := by
  intro use e h
  simp [service, start_service, h]

/-- Witness for C10 at a concrete fatal ping error. -/
theorem service_no_stop_on_other_readiness_error_witness :
    service "Linux" (.error (.other "fatal ping failure")) .ok =
      { result := .error (.other "fatal ping failure"), stops := 0, yielded := false } :=
  service_no_stop_on_other_readiness_error .ok (.other "fatal ping failure") rfl

/-- C1: evaluation of the `service` context manager on the failing input —
readiness succeeded and the caller's block raises.  Because the source wraps
no `try`/`finally` around `yield proc`, the exception thrown into the
generator propagates with `stop_service` invoked zero times, contradicting
release-on-every-exit-path: the spawned child is left running. -/
theorem service_skips_stop_on_caller_exception :
    service "Linux" (.ok ()) (.raises (.other "caller error")) =
      { result := .error (.other "caller error"), stops := 0, yielded := true } := rfl

/-- Trace for the C2 counterexample: the clock reads 5 from the start, the
child never exits, and the very first ping succeeds. -/
def trPingsImmediately : WaitTrace :=
  { elapsed := fun _ => 5, pollRes := fun _ => none, pingRes := fun _ => .ok true }

/-- C2 counterexample: with a configured timeout of 0 and the clock already
past it, `wait_for_service` does not fail with `ServiceTimeout` — Python
truthiness makes `if timeout and ...` skip the deadline guard for 0 — and it
does perform a ping (here the ping succeeds and the wait returns success
with one ping performed). -/
theorem wait_zero_timeout_counterexample :
    wait_for_service (some 0) trPingsImmediately 1 0 0 = some (.ok (), 1) ∧
      wait_for_service (some 0) trPingsImmediately 1 0 0 ≠
        some (.error (.serviceTimeout 0), 0) := by
  constructor
  · rfl
  · intro h
    rw [show wait_for_service (some 0) trPingsImmediately 1 0 0 =
        some (.ok (), 1) from rfl] at h
    simp at h

/-- C2 amended: a configured timeout of 0 disables the deadline guard, so
the `ServiceTimeout`-without-ping behaviour holds only for positive
timeouts: for every positive configured timeout with the clock already past
the deadline at the first iteration, the wait fails with `ServiceTimeout`
without performing any ping. -/
theorem wait_positive_timeout_expired_no_ping :
    ∀ (t : Nat) (tr : WaitTrace) (fuel : Nat),
      0 < t → t < tr.elapsed 0 →
      wait_for_service (some t) tr (fuel + 1) 0 0 =
        some (.error (.serviceTimeout t), 0) := by
  intro t tr fuel ht he
  have hd : deadlineHit (some t) tr 0 = true := by
    simp [deadlineHit, he]
    omega
  simp [wait_for_service, waitStep, pingAttempted, hd]

/-- Trace for the C2 witness: the clock reads 3 at every iteration. -/
def trExpiredClock : WaitTrace :=
  { elapsed := fun _ => 3, pollRes := fun _ => none, pingRes := fun _ => .ok true }

/-- Witness for the amended C2 at timeout 1 with the clock at 3. -/
theorem wait_positive_timeout_expired_no_ping_witness :
    wait_for_service (some 1) trExpiredClock 1 0 0 =
      some (.error (.serviceTimeout 1), 0) :=
  wait_positive_timeout_expired_no_ping 1 trExpiredClock 0 (by decide) (by decide)

/-- C3: process-exit observation preempts the ping.  First conjunct: at any
iteration where `proc.poll()` reports an exit code, the iteration can never
decide success, whatever the ping would have returned.  Second conjunct: if
the child has exited by iteration `k`, the deadline guard never fires up to
`k`, and every earlier iteration fell through (process running, ping
returning `False` or raising the swallowed connectivity error — so no
successful ping ever happened), then the wait fails with
`ServiceTerminated c` where `c` is the process's actual exit code, after
exactly the `k` pings of the earlier iterations. -/
theorem wait_process_exit_preempts_ping :
    (∀ (timeout : Option Nat) (tr : WaitTrace) (k : Nat) (c : Int),
        tr.pollRes k = some c → waitStep timeout tr k ≠ .success) ∧
    (∀ (timeout : Option Nat) (tr : WaitTrace) (k : Nat) (c : Int) (fuel : Nat),
        (∀ i, i < k → tr.pollRes i = none ∧
            (tr.pingRes i = .ok false ∨ tr.pingRes i = .exc .apiError)) →
        (∀ i, i ≤ k → deadlineHit timeout tr i = false) →
        tr.pollRes k = some c →
        wait_for_service timeout tr (k + 1 + fuel) 0 0 =
          some (.error (.serviceTerminated c), k)) := by
  constructor
  · intro timeout tr k c h
    cases hd : deadlineHit timeout tr k <;> simp [waitStep, hd, h]
  · intro timeout tr k c fuel hcont hdl hk
    have hsk := wait_for_service_skip timeout tr fuel k 0 0 (by
      intro i hi0 hik
      refine ⟨hdl i (by omega), (hcont i (by omega)).1, (hcont i (by omega)).2⟩)
    have hf : k + 1 + fuel = k + (fuel + 1) := by omega
    rw [hf, hsk]
    have hdk : deadlineHit timeout tr k = false := hdl k (le_refl k)
    have hatt : pingAttempted timeout tr k = false := by
      simp [pingAttempted, hdk, hk]
    simp [wait_for_service, waitStep, hdk, hk, hatt]

/-- Trace for the C3 witness: the child has already exited with code 7. -/
def trExitedAtStart : WaitTrace :=
  { elapsed := fun _ => 0, pollRes := fun _ => some 7, pingRes := fun _ => .ok true }

/-- Witness for C3: with the child already exited with code 7 and a
would-be-successful ping pending, the step is not a success and the wait
fails with `ServiceTerminated 7` after zero pings. -/
theorem wait_process_exit_preempts_ping_witness :
    waitStep none trExitedAtStart 0 ≠ .success ∧
      wait_for_service none trExitedAtStart 1 0 0 =
        some (.error (.serviceTerminated 7), 0) :=
  ⟨wait_process_exit_preempts_ping.1 none trExitedAtStart 0 7 rfl,
   wait_process_exit_preempts_ping.2 none trExitedAtStart 0 7 0
     (fun i hi => absurd hi (by omega)) (fun i _ => rfl) rfl⟩

/-- C4: the deadline guard is evaluated before the process-exit guard: at
any iteration where a positive timeout is configured and the elapsed clock
exceeds it, the iteration raises `ServiceTimeout t` even when `proc.poll()`
would report that the process has exited. -/
theorem wait_deadline_preempts_process_exit :
    ∀ (tr : WaitTrace) (t k : Nat) (c : Int),
      0 < t → t < tr.elapsed k → tr.pollRes k = some c →
      waitStep (some t) tr k = .raises (.serviceTimeout t) := by
  intro tr t k c ht he _
  have hd : deadlineHit (some t) tr k = true := by
    simp [deadlineHit, he]
    omega
  simp [waitStep, hd]

/-- Trace for the C4 witness: the clock reads 10 and the child has exited
with code 3. -/
def trDeadlineAndExit : WaitTrace :=
  { elapsed := fun _ => 10, pollRes := fun _ => some 3, pingRes := fun _ => .ok true }

/-- Witness for C4 with timeout 2, clock 10 and an exited child. -/
theorem wait_deadline_preempts_process_exit_witness :
    waitStep (some 2) trDeadlineAndExit 0 = .raises (.serviceTimeout 2) :=
  wait_deadline_preempts_process_exit trDeadlineAndExit 2 0 3 (by decide) (by decide) rfl

/-- C5: the ping-failure policy of the readiness loop.  First conjunct: an
iteration that reaches the ping and sees the recoverable `APIError`
connectivity failure falls through to the sleep and the loop continues.
Second conjunct: any other exception raised by the ping is not swallowed —
the iteration propagates exactly that exception.  Third conjunct: at the
whole-loop level, a fatal (non-`APIError`) ping exception at iteration `k`
terminates the wait immediately with that exception after the `k + 1`
pings performed so far. -/
theorem wait_ping_error_policy :
    (∀ (timeout : Option Nat) (tr : WaitTrace) (k : Nat),
        deadlineHit timeout tr k = false → tr.pollRes k = none →
        tr.pingRes k = .exc .apiError → waitStep timeout tr k = .next) ∧
    (∀ (timeout : Option Nat) (tr : WaitTrace) (k : Nat) (e : PyExc),
        deadlineHit timeout tr k = false → tr.pollRes k = none →
        tr.pingRes k = .exc e → e ≠ .apiError →
        waitStep timeout tr k = .raises e) ∧
    (∀ (timeout : Option Nat) (tr : WaitTrace) (k : Nat) (e : PyExc) (fuel : Nat),
        (∀ i, i < k → deadlineHit timeout tr i = false ∧ tr.pollRes i = none ∧
            (tr.pingRes i = .ok false ∨ tr.pingRes i = .exc .apiError)) →
        deadlineHit timeout tr k = false → tr.pollRes k = none →
        tr.pingRes k = .exc e → e ≠ .apiError →
        wait_for_service timeout tr (k + 1 + fuel) 0 0 =
          some (.error e, k + 1)) := by
  refine ⟨?_, ?_, ?_⟩
  · intro timeout tr k hdl hpoll hping
    simp [waitStep, hdl, hpoll, hping]
  · intro timeout tr k e hdl hpoll hping hne
    cases e
    case apiError => exact absurd rfl hne
    all_goals simp [waitStep, hdl, hpoll, hping]
  · intro timeout tr k e fuel hcont hdl hpoll hping hne
    have hsk := wait_for_service_skip timeout tr fuel k 0 0 (by
      intro i hi0 hik
      exact hcont i (by omega))
    have hf : k + 1 + fuel = k + (fuel + 1) := by omega
    rw [hf, hsk]
    have hatt : pingAttempted timeout tr k = true := by
      simp [pingAttempted, hdl, hpoll]
    have hstep : waitStep timeout tr k = .raises e := by
      cases e
      case apiError => exact absurd rfl hne
      all_goals simp [waitStep, hdl, hpoll, hping]
    simp [wait_for_service, hstep, hatt]

/-- Trace for the C5 witness: the first two pings raise the recoverable
connectivity error, the third raises a fatal protocol error. -/
def trFatalPing : WaitTrace :=
  { elapsed := fun _ => 0
    pollRes := fun _ => none
    pingRes := fun k => if k < 2 then .exc .apiError else .exc (.other "protocol error") }

/-- Witness for C5: the recoverable error at iteration 0 is swallowed, the
fatal error at iteration 2 is propagated by the step and terminates the
whole wait with three pings performed. -/
theorem wait_ping_error_policy_witness :
    waitStep none trFatalPing 0 = .next ∧
      waitStep none trFatalPing 2 = .raises (.other "protocol error") ∧
      wait_for_service none trFatalPing 3 0 0 =
        some (.error (.other "protocol error"), 3) :=
  ⟨wait_ping_error_policy.1 none trFatalPing 0 rfl rfl rfl,
   wait_ping_error_policy.2.1 none trFatalPing 2 (.other "protocol error")
     rfl rfl rfl (by simp),
   wait_ping_error_policy.2.2 none trFatalPing 2 (.other "protocol error") 0
     (by intro i hi
         refine ⟨rfl, rfl, Or.inr ?_⟩
         interval_cases i <;> rfl)
     rfl rfl rfl (by simp)⟩
